import Mathlib

/-!
Verification of the gestr ASL fingerspelling backend.

The embedding below translates the two core components of the repository:

* the per-session stability filter `accumulateLetter` from `server.js`
  (lines 36-131), together with its configuration constants;
* the worker channel from `letterClassifier.js` (pending-request map,
  line handler, exit handler, timeout handler);
* the `/api/send-to-gemini` hand-off from `server.js` (lines 171-211),
  modelled with an explicit interleaving point at the `await` of the
  remote sentence-formation call.

JavaScript numbers used as confidences are modelled as rationals
(all comparisons in the claims are exact at the values involved),
`Date.now()` timestamps as natural-number parameters, and JS strings
holding single letters as `Char` once normalized.
-/

/-- STABILITY_COUNT from server.js line 34: `parseInt(process.env.STABILITY_COUNT) || 3`.
We model the default configuration, 3. -/
def STABILITY_COUNT : Nat := 3

/-- MIN_CONFIDENCE from server.js line 33: `0.7`. -/
def MIN_CONFIDENCE : Rat := mkRat 7 10

/-- JS `String.prototype.trim`, modelled on the character list: strip
whitespace from both ends. -/
def trimChars (l : List Char) : List Char :=
  ((l.dropWhile Char.isWhitespace).reverse.dropWhile Char.isWhitespace).reverse

/-- normalizeLetter from server.js lines 36-47: reject a missing or
non-string letter, trim, upper-case, and require exactly one character
matching `[A-Z]`. A `none` argument models `null`/`undefined`/non-string. -/
def normalizeLetter : Option String → Option Char
  | none => none
  | some s =>
    let upper := (trimChars s.toList).map Char.toUpper
    match upper with
    | [c] => if ('A' ≤ c ∧ c ≤ 'Z') then some c else none
    | _ => none

/-- A session record from server.js lines 50-56: accumulated letters,
the recent-prediction window, and the last-mutation timestamp. -/
structure Session where
  letters : List Char
  recentPredictions : List Char
  updatedAt : Nat
deriving DecidableEq, Repr

/-- The reason codes returned by accumulateLetter. -/
inductive Reason where
  | low_confidence
  | invalid_letter
  | insufficient_stability
  | unstable
deriving DecidableEq, Repr

/-- The result object built by accumulateLetter (server.js lines 62-130).
Fields the JS object omits are modelled as `none`. -/
structure AccResult where
  letters : List Char
  accumulatedText : String
  accepted : Bool
  acceptedLetter : Option Char
  reason : Option Reason
  stabilityProgress : Option Nat
  stabilityRequired : Option Nat
deriving DecidableEq, Repr

/-- The window update of server.js lines 84-87: push the clean letter,
then shift the oldest entry off when the length exceeds STABILITY_COUNT. -/
def windowPush (w : List Char) (c : Char) : List Char :=
  let w2 := w ++ [c]
  if STABILITY_COUNT < w2.length then w2.tail else w2

/-- accumulateLetter from server.js lines 49-131, acting on an explicit
session record (the implicit create-on-first-use of lines 50-56 is
modelled separately by `getOrCreate`). Returns the updated session and
the result object. `now` stands for `Date.now()`. -/
def accumulateLetter (letter : Option String) (confidence : Rat)
    (session : Session) (now : Nat) : Session × AccResult :=
  let cleanLetter := normalizeLetter letter
  if confidence < MIN_CONFIDENCE then
    (session,
     { letters := session.letters, accumulatedText := String.mk session.letters,
       accepted := false, acceptedLetter := none,
       reason := some Reason.low_confidence,
       stabilityProgress := none, stabilityRequired := none })
  else
    match cleanLetter with
    | none =>
      (session,
       { letters := session.letters, accumulatedText := String.mk session.letters,
         accepted := false, acceptedLetter := none,
         reason := some Reason.invalid_letter,
         stabilityProgress := none, stabilityRequired := none })
    | some c =>
      let recent := windowPush session.recentPredictions c
      let session1 : Session :=
        { letters := session.letters, recentPredictions := recent,
          updatedAt := session.updatedAt }
      if recent.length < STABILITY_COUNT then
        (session1,
         { letters := session1.letters, accumulatedText := String.mk session1.letters,
           accepted := false, acceptedLetter := none,
           reason := some Reason.insufficient_stability,
           stabilityProgress := some recent.length,
           stabilityRequired := some STABILITY_COUNT })
      else
        if recent.all (fun p => p == c) then
          if session1.letters.getLast? = some c then
            -- duplicate suppression: lastLetter === cleanLetter, no append,
            -- window kept, still accepted (server.js lines 115-130)
            (session1,
             { letters := session1.letters,
               accumulatedText := String.mk session1.letters,
               accepted := true, acceptedLetter := some c,
               reason := none, stabilityProgress := none, stabilityRequired := none })
          else
            -- commit: append, clear the window, touch the timestamp
            (⟨session1.letters ++ [c], [], now⟩,
             { letters := session1.letters ++ [c],
               accumulatedText := String.mk (session1.letters ++ [c]),
               accepted := true, acceptedLetter := some c,
               reason := none, stabilityProgress := none, stabilityRequired := none })
        else
          (session1,
           { letters := session1.letters, accumulatedText := String.mk session1.letters,
             accepted := false, acceptedLetter := none,
             reason := some Reason.unstable,
             stabilityProgress := none, stabilityRequired := none })

/-- The fresh session created on first use (server.js lines 50-56). -/
def emptySession (now : Nat) : Session :=
  { letters := [], recentPredictions := [], updatedAt := now }

/-- One classification frame fed into a session (timestamp fixed to 0,
which no claim observes). -/
def feed (s : Session) (l : Option String) (conf : Rat) : Session × AccResult :=
  accumulateLetter l conf s 0

/-- Frame 1 of the claim C1 scenario: ("H", 0.9) on a fresh session. -/
def f1 : Session × AccResult := feed (emptySession 0) (some "H") (mkRat 9 10)

/-- Frame 2 of the claim C1 scenario: ("H", 0.9). -/
def f2 : Session × AccResult := feed f1.1 (some "H") (mkRat 9 10)

/-- Frame 3 of the claim C1 scenario: ("H", 0.9). -/
def f3 : Session × AccResult := feed f2.1 (some "H") (mkRat 9 10)

/-- Frame 4 of the claim C1 scenario: ("E", 0.6). -/
def f4 : Session × AccResult := feed f3.1 (some "E") (mkRat 6 10)

/-- Frame 5 of the claim C1 scenario: ("E", 0.92). -/
def f5 : Session × AccResult := feed f4.1 (some "E") (mkRat 92 100)

/-- Frame 6 of the claim C1 scenario: ("E", 0.92). -/
def f6 : Session × AccResult := feed f5.1 (some "E") (mkRat 92 100)

/-- Frame 7 of the claim C1 scenario: ("E", 0.92). -/
def f7 : Session × AccResult := feed f6.1 (some "E") (mkRat 92 100)

/-- Claim C1: on a fresh session with threshold 3 and minimum confidence
0.70, the frame sequence (H,0.9) (H,0.9) (H,0.9) (E,0.6) (E,0.92)
(E,0.92) (E,0.92) yields: frames 1-2 rejected with insufficient
stability, frame 3 accepted committing H (text "H"), frame 4 rejected
for low confidence with the recent window unchanged, frames 5-6
rejected with insufficient stability, frame 7 accepted committing E
(text "HE"). -/
theorem claimC1_concrete_run :
    (f1.2.accepted = false ∧ f1.2.reason = some Reason.insufficient_stability) ∧
    (f2.2.accepted = false ∧ f2.2.reason = some Reason.insufficient_stability) ∧
    (f3.2.accepted = true ∧ f3.2.acceptedLetter = some 'H' ∧
      f3.2.accumulatedText = "H" ∧ f3.1.letters = ['H']) ∧
    (f4.2.accepted = false ∧ f4.2.reason = some Reason.low_confidence ∧
      f4.1.recentPredictions = f3.1.recentPredictions ∧ f4.1 = f3.1) ∧
    (f5.2.accepted = false ∧ f5.2.reason = some Reason.insufficient_stability) ∧
    (f6.2.accepted = false ∧ f6.2.reason = some Reason.insufficient_stability) ∧
    (f7.2.accepted = true ∧ f7.2.acceptedLetter = some 'E' ∧
      f7.2.accumulatedText = "HE" ∧ f7.1.letters = ['H', 'E']) := by
  decide

/-! ### Branch lemmas for accumulateLetter -/

/-- Low-confidence branch (server.js lines 62-70): early return, session untouched. -/
theorem acc_low (l : Option String) (conf : Rat) (s : Session) (now : Nat)
    (hconf : conf < MIN_CONFIDENCE) :
    accumulateLetter l conf s now =
      (s, ⟨s.letters, String.mk s.letters, false, none,
           some Reason.low_confidence, none, none⟩) := by
  simp [accumulateLetter, hconf]

/-- Invalid-letter branch (server.js lines 73-81): early return, session untouched. -/
theorem acc_invalid (l : Option String) (conf : Rat) (s : Session) (now : Nat)
    (hconf : ¬ conf < MIN_CONFIDENCE) (hnl : normalizeLetter l = none) :
    accumulateLetter l conf s now =
      (s, ⟨s.letters, String.mk s.letters, false, none,
           some Reason.invalid_letter, none, none⟩) := by
  simp [accumulateLetter, hconf, hnl]

/-- Insufficient-stability branch (server.js lines 90-100). -/
theorem acc_short (l : Option String) (conf : Rat) (s : Session) (now : Nat) (c : Char)
    (hconf : ¬ conf < MIN_CONFIDENCE) (hnl : normalizeLetter l = some c)
    (hlen : (windowPush s.recentPredictions c).length < STABILITY_COUNT) :
    accumulateLetter l conf s now =
      (⟨s.letters, windowPush s.recentPredictions c, s.updatedAt⟩,
       ⟨s.letters, String.mk s.letters, false, none,
        some Reason.insufficient_stability,
        some (windowPush s.recentPredictions c).length, some STABILITY_COUNT⟩) := by
  simp [accumulateLetter, hconf, hnl, hlen]

/-- Unstable branch (server.js lines 103-113): window full but mixed. -/
theorem acc_unstable (l : Option String) (conf : Rat) (s : Session) (now : Nat) (c : Char)
    (hconf : ¬ conf < MIN_CONFIDENCE) (hnl : normalizeLetter l = some c)
    (hlen : ¬ (windowPush s.recentPredictions c).length < STABILITY_COUNT)
    (hall : (windowPush s.recentPredictions c).all (fun p => p == c) = false) :
    accumulateLetter l conf s now =
      (⟨s.letters, windowPush s.recentPredictions c, s.updatedAt⟩,
       ⟨s.letters, String.mk s.letters, false, none,
        some Reason.unstable, none, none⟩) := by
  simp [accumulateLetter, hconf, hnl, hlen, hall]

/-- Duplicate-suppression branch (server.js lines 115-130): the stable
letter equals the last committed one, so nothing is appended and the
window is not cleared, yet the result is accepted. -/
theorem acc_dup (l : Option String) (conf : Rat) (s : Session) (now : Nat) (c : Char)
    (hconf : ¬ conf < MIN_CONFIDENCE) (hnl : normalizeLetter l = some c)
    (hlen : ¬ (windowPush s.recentPredictions c).length < STABILITY_COUNT)
    (hall : (windowPush s.recentPredictions c).all (fun p => p == c) = true)
    (hlast : s.letters.getLast? = some c) :
    accumulateLetter l conf s now =
      (⟨s.letters, windowPush s.recentPredictions c, s.updatedAt⟩,
       ⟨s.letters, String.mk s.letters, true, some c, none, none, none⟩) := by
  simp [accumulateLetter, hconf, hnl, hlen, hall, hlast]

/-- Commit branch (server.js lines 115-130): append the letter, clear
the window, touch the timestamp. -/
theorem acc_commit (l : Option String) (conf : Rat) (s : Session) (now : Nat) (c : Char)
    (hconf : ¬ conf < MIN_CONFIDENCE) (hnl : normalizeLetter l = some c)
    (hlen : ¬ (windowPush s.recentPredictions c).length < STABILITY_COUNT)
    (hall : (windowPush s.recentPredictions c).all (fun p => p == c) = true)
    (hlast : ¬ s.letters.getLast? = some c) :
    accumulateLetter l conf s now =
      (⟨s.letters ++ [c], [], now⟩,
       ⟨s.letters ++ [c], String.mk (s.letters ++ [c]), true, some c,
        none, none, none⟩) := by
  simp [accumulateLetter, hconf, hnl, hlen, hall, hlast]

/-- The window update never grows the window past the threshold. -/
theorem windowPush_length_le (w : List Char) (c : Char)
    (h : w.length ≤ STABILITY_COUNT) :
    (windowPush w c).length ≤ STABILITY_COUNT := by
  simp only [windowPush]
  split
  · rename_i h2
    simp only [List.length_tail, List.length_append, List.length_cons,
      List.length_nil] at h2 ⊢
    omega
  · rename_i h2
    simp only [List.length_append, List.length_cons, List.length_nil] at h2 ⊢
    omega

/-- On a full window the update evicts exactly the oldest entry. -/
theorem windowPush_eq_of_full (w : List Char) (c : Char)
    (h : w.length = STABILITY_COUNT) :
    windowPush w c = w.tail ++ [c] := by
  unfold windowPush
  have h2 : STABILITY_COUNT < (w ++ [c]).length := by
    simp [h]
  simp only [h2, if_true]
  cases w with
  | nil => simp [STABILITY_COUNT] at h
  | cons a t => simp

/-- Pushing the window letter onto an already uniform full window keeps it. -/
theorem windowPush_replicate (c : Char) :
    windowPush (List.replicate STABILITY_COUNT c) c
      = List.replicate STABILITY_COUNT c := by
  rw [windowPush_eq_of_full _ _ (List.length_replicate _ _)]
  show (List.replicate (2 + 1) c).tail ++ [c] = List.replicate STABILITY_COUNT c
  simp [List.replicate_succ, STABILITY_COUNT]

/-- A uniform window passes the all-same check. -/
theorem all_replicate (n : Nat) (c : Char) :
    (List.replicate n c).all (fun p => p == c) = true := by
  simp [List.all_eq_true, List.mem_replicate]

/-- Claim C3: any frame whose confidence is strictly below MIN_CONFIDENCE
is rejected with reason low_confidence and the session record (letters,
recent window, timestamp) is returned completely unchanged; in
particular the raw label is not added to the window. -/
theorem claimC3_low_confidence_rejected (l : Option String) (conf : Rat)
    (s : Session) (now : Nat) (h : conf < MIN_CONFIDENCE) :
    (accumulateLetter l conf s now).1 = s ∧
    (accumulateLetter l conf s now).1.recentPredictions = s.recentPredictions ∧
    (accumulateLetter l conf s now).1.letters = s.letters ∧
    (accumulateLetter l conf s now).1.updatedAt = s.updatedAt ∧
    (accumulateLetter l conf s now).2.accepted = false ∧
    (accumulateLetter l conf s now).2.reason = some Reason.low_confidence := by
  rw [acc_low l conf s now h]
  exact ⟨rfl, rfl, rfl, rfl, rfl, rfl⟩

/-- Witness for claim C3 at the concrete frame ("E", 0.6) against a
nonempty session. -/
theorem claimC3_witness :
    (mkRat 6 10 < MIN_CONFIDENCE) ∧
    ((accumulateLetter (some "E") (mkRat 6 10) ⟨['H'], ['E'], 5⟩ 9).1 = ⟨['H'], ['E'], 5⟩ ∧
     (accumulateLetter (some "E") (mkRat 6 10) ⟨['H'], ['E'], 5⟩ 9).1.recentPredictions = ['E'] ∧
     (accumulateLetter (some "E") (mkRat 6 10) ⟨['H'], ['E'], 5⟩ 9).1.letters = ['H'] ∧
     (accumulateLetter (some "E") (mkRat 6 10) ⟨['H'], ['E'], 5⟩ 9).1.updatedAt = 5 ∧
     (accumulateLetter (some "E") (mkRat 6 10) ⟨['H'], ['E'], 5⟩ 9).2.accepted = false ∧
     (accumulateLetter (some "E") (mkRat 6 10) ⟨['H'], ['E'], 5⟩ 9).2.reason = some Reason.low_confidence) :=
  ⟨by decide, claimC3_low_confidence_rejected (some "E") (mkRat 6 10) ⟨['H'], ['E'], 5⟩ 9 (by decide)⟩

/-- Claim C8: for every session whose window respects the bound (as all
sessions the code ever builds do, starting empty) and every input frame,
the recent window after accumulateLetter still has length at most
STABILITY_COUNT; and on a full window the update evicts the oldest
entry. -/
theorem claimC8_window_bounded (l : Option String) (conf : Rat) (s : Session)
    (now : Nat) (w : List Char) (c : Char)
    (hs : s.recentPredictions.length ≤ STABILITY_COUNT)
    (hw : w.length = STABILITY_COUNT) :
    (accumulateLetter l conf s now).1.recentPredictions.length ≤ STABILITY_COUNT ∧
    windowPush w c = w.tail ++ [c] := by
  refine ⟨?_, windowPush_eq_of_full w c hw⟩
  by_cases hconf : conf < MIN_CONFIDENCE
  · rw [acc_low l conf s now hconf]
    exact hs
  · cases hnl : normalizeLetter l with
    | none =>
      rw [acc_invalid l conf s now hconf hnl]
      exact hs
    | some c2 =>
      by_cases hlen : (windowPush s.recentPredictions c2).length < STABILITY_COUNT
      · rw [acc_short l conf s now c2 hconf hnl hlen]
        exact windowPush_length_le _ _ hs
      · by_cases hall : (windowPush s.recentPredictions c2).all (fun p => p == c2) = true
        · by_cases hlast : s.letters.getLast? = some c2
          · rw [acc_dup l conf s now c2 hconf hnl hlen hall hlast]
            exact windowPush_length_le _ _ hs
          · rw [acc_commit l conf s now c2 hconf hnl hlen hall hlast]
            simp [STABILITY_COUNT]
        · rw [acc_unstable l conf s now c2 hconf hnl hlen
            (Bool.not_eq_true _ ▸ eq_false_of_ne_true hall)]
          exact windowPush_length_le _ _ hs

/-- Witness for claim C8 on a full window ['A','B','C'] fed ('D', 0.95). -/
theorem claimC8_witness :
    ((['A', 'B', 'C'] : List Char).length ≤ STABILITY_COUNT ∧
     (['X', 'Y', 'Z'] : List Char).length = STABILITY_COUNT) ∧
    ((accumulateLetter (some "D") (mkRat 95 100) ⟨['H'], ['A', 'B', 'C'], 0⟩ 7).1.recentPredictions.length ≤ STABILITY_COUNT ∧
     windowPush ['X', 'Y', 'Z'] 'W' = ['Y', 'Z'] ++ ['W']) :=
  ⟨⟨by decide, by decide⟩,
   claimC8_window_bounded (some "D") (mkRat 95 100) ⟨['H'], ['A', 'B', 'C'], 0⟩ 7
     ['X', 'Y', 'Z'] 'W' (by decide) (by decide)⟩

/-- Claim C9: in the duplicate-suppression case (full uniform window whose
letter equals the last committed one, confidence at or above the
minimum), accumulateLetter returns the session completely unchanged (in
particular the window is not cleared) with an accepted result carrying
acceptedLetter, and feeding the same frame once more immediately yields
accepted = true again with the accumulated letters still unchanged. -/
theorem claimC9_duplicate_keeps_window (l : Option String) (conf : Rat)
    (s : Session) (now : Nat) (c : Char)
    (hconf : ¬ conf < MIN_CONFIDENCE)
    (hnl : normalizeLetter l = some c)
    (hrec : s.recentPredictions = List.replicate STABILITY_COUNT c)
    (hlast : s.letters.getLast? = some c) :
    (accumulateLetter l conf s now).1 = s ∧
    (accumulateLetter l conf s now).2.accepted = true ∧
    (accumulateLetter l conf s now).2.acceptedLetter = some c ∧
    (accumulateLetter l conf s now).2.letters = s.letters ∧
    (accumulateLetter l conf (accumulateLetter l conf s now).1 now).2.accepted = true ∧
    (accumulateLetter l conf (accumulateLetter l conf s now).1 now).2.letters = s.letters := by
  have hwin : windowPush s.recentPredictions c = List.replicate STABILITY_COUNT c := by
    rw [hrec]
    exact windowPush_replicate c
  have hlen : ¬ (windowPush s.recentPredictions c).length < STABILITY_COUNT := by
    rw [hwin, List.length_replicate]
    omega
  have hall : (windowPush s.recentPredictions c).all (fun p => p == c) = true := by
    rw [hwin]
    exact all_replicate _ c
  have hstep := acc_dup l conf s now c hconf hnl hlen hall hlast
  have hfix : (accumulateLetter l conf s now).1 = s := by
    rw [hstep, hwin, ← hrec]
  refine ⟨hfix, ?_, ?_, ?_, ?_, ?_⟩
  · rw [hstep]
  · rw [hstep]
  · rw [hstep]
  · rw [hfix, hstep]
  · rw [hfix, hstep]

/-- Witness for claim C9: session with letters ['H'] and window
['H','H','H'], fed ("H", 0.9). -/
theorem claimC9_witness :
    (¬ mkRat 9 10 < MIN_CONFIDENCE ∧
     normalizeLetter (some "H") = some 'H' ∧
     (⟨['H'], ['H', 'H', 'H'], 4⟩ : Session).recentPredictions = List.replicate STABILITY_COUNT 'H' ∧
     (⟨['H'], ['H', 'H', 'H'], 4⟩ : Session).letters.getLast? = some 'H') ∧
    ((accumulateLetter (some "H") (mkRat 9 10) ⟨['H'], ['H', 'H', 'H'], 4⟩ 8).1 = ⟨['H'], ['H', 'H', 'H'], 4⟩ ∧
     (accumulateLetter (some "H") (mkRat 9 10) ⟨['H'], ['H', 'H', 'H'], 4⟩ 8).2.accepted = true ∧
     (accumulateLetter (some "H") (mkRat 9 10) ⟨['H'], ['H', 'H', 'H'], 4⟩ 8).2.acceptedLetter = some 'H' ∧
     (accumulateLetter (some "H") (mkRat 9 10) ⟨['H'], ['H', 'H', 'H'], 4⟩ 8).2.letters = ['H'] ∧
     (accumulateLetter (some "H") (mkRat 9 10) (accumulateLetter (some "H") (mkRat 9 10) ⟨['H'], ['H', 'H', 'H'], 4⟩ 8).1 8).2.accepted = true ∧
     (accumulateLetter (some "H") (mkRat 9 10) (accumulateLetter (some "H") (mkRat 9 10) ⟨['H'], ['H', 'H', 'H'], 4⟩ 8).1 8).2.letters = ['H']) :=
  ⟨⟨by decide, by decide, by decide, by decide⟩,
   claimC9_duplicate_keeps_window (some "H") (mkRat 9 10) ⟨['H'], ['H', 'H', 'H'], 4⟩ 8 'H'
     (by decide) (by decide) (by decide) (by decide)⟩

/-- Window pushes below the threshold just append. -/
theorem windowPush_nil (c : Char) : windowPush [] c = [c] := rfl

/-- Pushing onto a one-element window appends. -/
theorem windowPush_one (a c : Char) : windowPush [a] c = [a, c] := rfl

/-- Pushing onto a two-element window appends. -/
theorem windowPush_two (a b c : Char) : windowPush [a, b] c = [a, b, c] := rfl

/-- Counterexample to claim C2 as stated: the claim quantifies over every
session, and fails in two ways. On the session ⟨[], ['H','H'], 0⟩, whose
recent window already holds two matching entries, the very first
("H", 0.9) feed commits 'H' — earlier than the N-th feed. And on the
session ⟨['H'], [], 0⟩, whose last committed letter already equals the
fed label, feeding ("H", 0.9) three times appends nothing at all — the
third feed takes the duplicate-suppression branch, so the letters stay
['H'] rather than gaining the promised single append. -/
theorem claimC2_counterexample :
    (normalizeLetter (some "H") = some 'H' ∧
     ¬ mkRat 9 10 < MIN_CONFIDENCE) ∧
    ((feed ⟨[], ['H', 'H'], 0⟩ (some "H") (mkRat 9 10)).2.accepted = true ∧
     (feed ⟨[], ['H', 'H'], 0⟩ (some "H") (mkRat 9 10)).1.letters = ['H'] ∧
     ¬ (feed ⟨[], ['H', 'H'], 0⟩ (some "H") (mkRat 9 10)).1.letters
        = (⟨[], ['H', 'H'], 0⟩ : Session).letters) ∧
    ((feed (feed (feed ⟨['H'], [], 0⟩ (some "H") (mkRat 9 10)).1
        (some "H") (mkRat 9 10)).1 (some "H") (mkRat 9 10)).1.letters = ['H'] ∧
     ¬ (feed (feed (feed ⟨['H'], [], 0⟩ (some "H") (mkRat 9 10)).1
        (some "H") (mkRat 9 10)).1 (some "H") (mkRat 9 10)).1.letters
        = (⟨['H'], [], 0⟩ : Session).letters ++ ['H']) := by
  decide

/-- Claim C2 (amended): for every session whose recent window is empty and
whose last committed letter differs from the fed label, feeding the same
valid label three times (the stability threshold) with each feed's own
confidence at or above the minimum appends the symbol exactly once, on
the third feed and not earlier; and for any session where the updated
window is full and uniform with a label equal to the last committed
letter, accumulateLetter returns an accepted outcome without appending. -/
theorem claimC2_amended (l : Option String) (confa confb confc : Rat)
    (s : Session) (n1 n2 n3 : Nat) (c : Char) (l2 : Option String)
    (conf2 : Rat) (s2 : Session) (n4 : Nat) (c2 : Char)
    (hwin : s.recentPredictions = [])
    (hnl : normalizeLetter l = some c)
    (hconfa : ¬ confa < MIN_CONFIDENCE)
    (hconfb : ¬ confb < MIN_CONFIDENCE)
    (hconfc : ¬ confc < MIN_CONFIDENCE)
    (hlast : ¬ s.letters.getLast? = some c)
    (h2nl : normalizeLetter l2 = some c2)
    (h2conf : ¬ conf2 < MIN_CONFIDENCE)
    (h2win : windowPush s2.recentPredictions c2 = List.replicate STABILITY_COUNT c2)
    (h2last : s2.letters.getLast? = some c2) :
    (accumulateLetter l confa s n1).2.accepted = false ∧
    (accumulateLetter l confa s n1).1.letters = s.letters ∧
    (accumulateLetter l confb (accumulateLetter l confa s n1).1 n2).2.accepted = false ∧
    (accumulateLetter l confb (accumulateLetter l confa s n1).1 n2).1.letters = s.letters ∧
    (accumulateLetter l confc
      (accumulateLetter l confb (accumulateLetter l confa s n1).1 n2).1 n3).2.accepted = true ∧
    (accumulateLetter l confc
      (accumulateLetter l confb (accumulateLetter l confa s n1).1 n2).1 n3).1.letters
      = s.letters ++ [c] ∧
    (accumulateLetter l2 conf2 s2 n4).2.accepted = true ∧
    (accumulateLetter l2 conf2 s2 n4).1.letters = s2.letters := by
  have hpush1 : windowPush s.recentPredictions c = [c] := by
    rw [hwin, windowPush_nil]
  have hlen1 : (windowPush s.recentPredictions c).length < STABILITY_COUNT := by
    rw [hpush1]
    norm_num [STABILITY_COUNT]
  have h1 := acc_short l confa s n1 c hconfa hnl hlen1
  have ht1 : (accumulateLetter l confa s n1).1
      = ⟨s.letters, [c], s.updatedAt⟩ := by
    rw [h1, hpush1]
  have hlen2 : (windowPush [c] c).length < STABILITY_COUNT := by
    rw [windowPush_one]
    norm_num [STABILITY_COUNT]
  have h2 := acc_short l confb ⟨s.letters, [c], s.updatedAt⟩ n2 c hconfb hnl hlen2
  have ht2 : (accumulateLetter l confb (accumulateLetter l confa s n1).1 n2).1
      = ⟨s.letters, [c, c], s.updatedAt⟩ := by
    rw [ht1, h2, windowPush_one]
  have hlen3 : ¬ (windowPush [c, c] c).length < STABILITY_COUNT := by
    rw [windowPush_two]
    norm_num [STABILITY_COUNT]
  have hall3 : (windowPush [c, c] c).all (fun p => p == c) = true := by
    rw [windowPush_two]
    simp
  have h3 := acc_commit l confc ⟨s.letters, [c, c], s.updatedAt⟩ n3 c hconfc hnl hlen3 hall3 hlast
  have h2len : ¬ (windowPush s2.recentPredictions c2).length < STABILITY_COUNT := by
    rw [h2win, List.length_replicate]
    omega
  have h2all : (windowPush s2.recentPredictions c2).all (fun p => p == c2) = true := by
    rw [h2win]
    exact all_replicate _ c2
  have h4 := acc_dup l2 conf2 s2 n4 c2 h2conf h2nl h2len h2all h2last
  refine ⟨?_, ?_, ?_, ?_, ?_, ?_, ?_, ?_⟩
  · rw [h1]
  · rw [h1]
  · rw [ht1, h2]
  · rw [ht1, h2]
  · rw [ht2, h3]
  · rw [ht2, h3]
  · rw [h4]
  · rw [h4]

/-- Witness for the amended claim C2: session with letters ['H'] and an
empty window, fed "E" at three distinct confidences 0.8, 0.9 and 0.75
(each at or above the minimum); and the reconfirmation session
⟨['H'], ['H','H'], 0⟩ fed ("H", 0.9). -/
theorem claimC2_witness :
    ((⟨['H'], [], 0⟩ : Session).recentPredictions = [] ∧
     normalizeLetter (some "E") = some 'E' ∧
     ¬ mkRat 8 10 < MIN_CONFIDENCE ∧
     ¬ mkRat 9 10 < MIN_CONFIDENCE ∧
     ¬ mkRat 75 100 < MIN_CONFIDENCE ∧
     ¬ (⟨['H'], [], 0⟩ : Session).letters.getLast? = some 'E' ∧
     normalizeLetter (some "H") = some 'H' ∧
     windowPush (⟨['H'], ['H', 'H'], 0⟩ : Session).recentPredictions 'H'
       = List.replicate STABILITY_COUNT 'H' ∧
     (⟨['H'], ['H', 'H'], 0⟩ : Session).letters.getLast? = some 'H') ∧
    ((accumulateLetter (some "E") (mkRat 8 10) ⟨['H'], [], 0⟩ 1).2.accepted = false ∧
     (accumulateLetter (some "E") (mkRat 8 10) ⟨['H'], [], 0⟩ 1).1.letters = ['H'] ∧
     (accumulateLetter (some "E") (mkRat 9 10)
       (accumulateLetter (some "E") (mkRat 8 10) ⟨['H'], [], 0⟩ 1).1 2).2.accepted = false ∧
     (accumulateLetter (some "E") (mkRat 9 10)
       (accumulateLetter (some "E") (mkRat 8 10) ⟨['H'], [], 0⟩ 1).1 2).1.letters = ['H'] ∧
     (accumulateLetter (some "E") (mkRat 75 100)
       (accumulateLetter (some "E") (mkRat 9 10)
         (accumulateLetter (some "E") (mkRat 8 10) ⟨['H'], [], 0⟩ 1).1 2).1 3).2.accepted = true ∧
     (accumulateLetter (some "E") (mkRat 75 100)
       (accumulateLetter (some "E") (mkRat 9 10)
         (accumulateLetter (some "E") (mkRat 8 10) ⟨['H'], [], 0⟩ 1).1 2).1 3).1.letters
       = ['H'] ++ ['E'] ∧
     (accumulateLetter (some "H") (mkRat 9 10) ⟨['H'], ['H', 'H'], 0⟩ 4).2.accepted = true ∧
     (accumulateLetter (some "H") (mkRat 9 10) ⟨['H'], ['H', 'H'], 0⟩ 4).1.letters = ['H']) :=
  ⟨⟨by decide, by decide, by decide, by decide, by decide, by decide, by decide, by decide,
    by decide⟩,
   claimC2_amended (some "E") (mkRat 8 10) (mkRat 9 10) (mkRat 75 100) ⟨['H'], [], 0⟩ 1 2 3 'E'
     (some "H") (mkRat 9 10) ⟨['H'], ['H', 'H'], 0⟩ 4 'H'
     (by decide) (by decide) (by decide) (by decide) (by decide)
     (by decide) (by decide) (by decide) (by decide) (by decide)⟩

/-! ### Worker channel (letterClassifier.js)

The channel keeps one optional worker-process handle, a request counter,
and a map of pending requests keyed by correlation id (modelled as an
association list in insertion order, as a JS `Map` iterates). Promise
settlement is modelled by the list of (id, settlement) pairs an event
produces; `spawn` and `stdin.write` are modelled as succeeding, and
`console.error` logging is not modelled. -/

/-- REQUEST_TIMEOUT_MS from letterClassifier.js: 12000 milliseconds. -/
def REQUEST_TIMEOUT_MS : Nat := 12000

/-- How a pending promise is settled. -/
inductive Settlement where
  | success (letter : Option String) (confidence : Option Rat)
  | failure (msg : String)
deriving DecidableEq, Repr

/-- The module-level mutable state of letterClassifier.js:
`pythonProcess` (tagged by a spawn generation so fresh processes are
distinguishable), `requestCounter`, and `pendingRequests` with each
entry carrying its timeout deadline. -/
structure WorkerState where
  process : Option Nat
  requestCounter : Nat
  pending : List (String × Nat)
deriving DecidableEq, Repr

/-- A parsed worker stdout line: the JSON payload fields the reader uses. -/
structure Payload where
  id : String
  error : Option String
  letter : Option String
  confidence : Option Rat
deriving DecidableEq, Repr

/-- JS truthiness of the optional `payload.error` string. -/
def errTruthy : Option String → Bool
  | none => false
  | some s => s ≠ ""

/-- One line received from the worker stdout, as the reader loop sees it
after `JSON.parse`: blank (skipped), unparseable, or a payload. -/
inductive WorkerLine where
  | blank
  | malformed
  | msg (p : Payload)

/-- ensureWorker from letterClassifier.js lines 300-304: start a process
(of the given spawn generation) when none is running. -/
def ensureWorker (gen : Nat) (st : WorkerState) : WorkerState :=
  match st.process with
  | some _ => st
  | none => { st with process := some gen }

/-- classifyLetterFromBase64 from letterClassifier.js lines 310-342
(state effects only): ensure a worker, build the correlation id
`req_<now>_<counter>`, arm the 12-second timeout, and register the
pending entry. The stdin write is modelled as succeeding. Returns the
new state and the correlation id. -/
def classify (now gen : Nat) (st : WorkerState) : WorkerState × String :=
  let st1 := ensureWorker gen st
  let counter := st1.requestCounter + 1
  let rid := "req_" ++ toString now ++ "_" ++ toString counter
  ({ st1 with requestCounter := counter,
              pending := st1.pending ++ [(rid, now + REQUEST_TIMEOUT_MS)] },
   rid)

/-- The stdout line handler of letterClassifier.js lines 232-262: skip
blank lines, drop unparseable lines, drop payloads whose id has no
pending entry, and otherwise remove the entry and settle its promise
(reject on a truthy error field, resolve otherwise). -/
def lineHandler (line : WorkerLine) (st : WorkerState) :
    WorkerState × List (String × Settlement) :=
  match line with
  | .blank => (st, [])
  | .malformed => (st, [])
  | .msg p =>
    match st.pending.find? (fun e => e.1 == p.id) with
    | none => (st, [])
    | some _ =>
      let st2 := { st with pending := st.pending.filter (fun e => !(e.1 == p.id)) }
      if errTruthy p.error then
        (st2, [(p.id, Settlement.failure ((p.error).getD ""))])
      else
        (st2, [(p.id, Settlement.success p.letter p.confidence)])

/-- The exit handler of letterClassifier.js lines 269-279: cleanupWorker
clears the process handle, then every pending request is rejected with
the worker-unavailable error and the pending map is cleared. -/
def onExit (st : WorkerState) : WorkerState × List (String × Settlement) :=
  ({ st with process := none, pending := [] },
   st.pending.map (fun e => (e.1, Settlement.failure "Classifier worker exited unexpectedly")))

/-- The timeout callback of letterClassifier.js lines 325-330 firing for
a given correlation id: if the id is still pending, remove it and reject
with the timeout error; otherwise do nothing. -/
def onTimeout (rid : String) (st : WorkerState) :
    WorkerState × List (String × Settlement) :=
  if st.pending.any (fun e => e.1 == rid) then
    ({ st with pending := st.pending.filter (fun e => !(e.1 == rid)) },
     [(rid, Settlement.failure "Classifier request timed out")])
  else
    (st, [])

/-- Claim C5: when the worker process exits, every still-pending request
is rejected with the worker-unavailable error, the pending map and the
process handle are cleared, and a subsequent classify call starts a
fresh worker process (the state after it has a live process and the new
request registered). -/
theorem claimC5_exit_rejects_and_restarts (st : WorkerState) (now gen : Nat) :
    (onExit st).1.process = none ∧
    (onExit st).1.pending = [] ∧
    (onExit st).2 = st.pending.map
      (fun e => (e.1, Settlement.failure "Classifier worker exited unexpectedly")) ∧
    (classify now gen (onExit st).1).1.process = some gen ∧
    (classify now gen (onExit st).1).1.pending
      = [((classify now gen (onExit st).1).2, now + REQUEST_TIMEOUT_MS)] := by
  refine ⟨rfl, rfl, rfl, rfl, rfl⟩

/-- Claim C7: a worker stdout line that fails to parse leaves the channel
state (in particular the pending-request map) unchanged and settles no
pending promise; the same holds for blank lines. -/
theorem claimC7_malformed_line_is_noop (st : WorkerState) :
    lineHandler WorkerLine.malformed st = (st, []) ∧
    lineHandler WorkerLine.blank st = (st, []) := by
  exact ⟨rfl, rfl⟩

/-- Claim C6: a classify call arms a deadline of exactly
REQUEST_TIMEOUT_MS = 12000 ms for its correlation id; when the timeout
fires while the id is still pending, the entry is removed and rejected
with the timeout error exactly once (firing again is a no-op), every
other pending entry survives, and a response line for that id arriving
afterwards is silently discarded without touching any pending request. -/
theorem claimC6_timeout_behavior (st : WorkerState) (now gen : Nat)
    (rid : String) (p : Payload)
    (hpend : st.pending.any (fun e => e.1 == rid) = true)
    (hpid : p.id = rid) :
    REQUEST_TIMEOUT_MS = 12000 ∧
    (∀ st0 : WorkerState,
      ((classify now gen st0).2, now + REQUEST_TIMEOUT_MS) ∈ (classify now gen st0).1.pending) ∧
    (onTimeout rid st).2 = [(rid, Settlement.failure "Classifier request timed out")] ∧
    (∀ e, e ∈ st.pending → (e.1 == rid) = false → e ∈ (onTimeout rid st).1.pending) ∧
    (∀ e, e ∈ (onTimeout rid st).1.pending → (e.1 == rid) = false) ∧
    onTimeout rid (onTimeout rid st).1 = ((onTimeout rid st).1, []) ∧
    lineHandler (WorkerLine.msg p) (onTimeout rid st).1 = ((onTimeout rid st).1, []) := by
  have hmem : ∀ e, e ∈ (onTimeout rid st).1.pending → (e.1 == rid) = false := by
    intro e he
    simp only [onTimeout, hpend, if_true, List.mem_filter,
      Bool.not_eq_true'] at he
    exact he.2
  have hany : ((onTimeout rid st).1.pending.any (fun e => e.1 == rid)) = false := by
    rw [List.any_eq_false]
    intro e he
    simp [hmem e he]
  have hfind : ((onTimeout rid st).1.pending.find? (fun e => e.1 == p.id)) = none := by
    rw [List.find?_eq_none]
    intro e he
    rw [hpid]
    simp [hmem e he]
  refine ⟨rfl, ?_, ?_, ?_, hmem, ?_, ?_⟩
  · intro st0
    simp [classify]
  · simp [onTimeout, hpend]
  · intro e he hne
    simp only [onTimeout, hpend, if_true, List.mem_filter]
    exact ⟨he, by simp [hne]⟩
  · set stP := (onTimeout rid st).1 with hdef
    simp [onTimeout, hany]
  · simp [lineHandler, hfind]

/-- Witness for claim C6: one pending request req_5_1 (with a second
pending request req_9_2 that must survive) timing out and then receiving
a late response. -/
theorem claimC6_witness :
    ((([("req_5_1", 12005), ("req_9_2", 12009)] : List (String × Nat)).any
        (fun e => e.1 == "req_5_1") = true) ∧
     ("req_5_1" : String) = "req_5_1") ∧
    (REQUEST_TIMEOUT_MS = 12000 ∧
     (∀ st0 : WorkerState,
       ((classify 5 0 st0).2, 5 + REQUEST_TIMEOUT_MS) ∈ (classify 5 0 st0).1.pending) ∧
     (onTimeout "req_5_1" ⟨some 0, 2, [("req_5_1", 12005), ("req_9_2", 12009)]⟩).2
       = [("req_5_1", Settlement.failure "Classifier request timed out")] ∧
     (∀ e, e ∈ (⟨some 0, 2, [("req_5_1", 12005), ("req_9_2", 12009)]⟩ : WorkerState).pending →
       (e.1 == "req_5_1") = false →
       e ∈ (onTimeout "req_5_1" ⟨some 0, 2, [("req_5_1", 12005), ("req_9_2", 12009)]⟩).1.pending) ∧
     (∀ e, e ∈ (onTimeout "req_5_1" ⟨some 0, 2, [("req_5_1", 12005), ("req_9_2", 12009)]⟩).1.pending →
       (e.1 == "req_5_1") = false) ∧
     onTimeout "req_5_1" (onTimeout "req_5_1" ⟨some 0, 2, [("req_5_1", 12005), ("req_9_2", 12009)]⟩).1
       = ((onTimeout "req_5_1" ⟨some 0, 2, [("req_5_1", 12005), ("req_9_2", 12009)]⟩).1, []) ∧
     lineHandler (WorkerLine.msg ⟨"req_5_1", none, some "H", some (mkRat 9 10)⟩)
         (onTimeout "req_5_1" ⟨some 0, 2, [("req_5_1", 12005), ("req_9_2", 12009)]⟩).1
       = ((onTimeout "req_5_1" ⟨some 0, 2, [("req_5_1", 12005), ("req_9_2", 12009)]⟩).1, [])) :=
  ⟨⟨by decide, rfl⟩,
   claimC6_timeout_behavior ⟨some 0, 2, [("req_5_1", 12005), ("req_9_2", 12009)]⟩ 5 0
     "req_5_1" ⟨"req_5_1", none, some "H", some (mkRat 9 10)⟩ (by decide) rfl⟩

/-! ### The /api/send-to-gemini hand-off (server.js lines 171-211)

The handler is modelled on the single session the request names
(`letterSessions.get(sessionId)` becomes an `Option Session`). Its one
`await` — the remote generateContent call — is an interleaving point in
Node: other request handlers may run and mutate the session store
there. That interleaving is made explicit as a function `mid` applied
to the store between the read (line 175) and the deletion (lines
196-198). -/

/-- The HTTP responses of the hand-off, as far as the claims observe them. -/
inductive GeminiResp where
  | ok (sentence originalText : String)
  | badRequest
  | serverError (msg : String)
deriving DecidableEq, Repr

/-- server.js line 175, `text?.trim() || session?.letters?.join("")`,
composed with the line 177 falsiness check: the accumulated text the
handler proceeds with, or `none` for the 400 response. -/
def geminiReadText (textParam : Option String) (store : Option Session) :
    Option String :=
  let fromText :=
    match textParam with
    | none => none
    | some t =>
      if String.mk (trimChars t.toList) = "" then none
      else some (String.mk (trimChars t.toList))
  let raw :=
    match fromText with
    | some t => some t
    | none =>
      match store with
      | none => none
      | some s => some (String.mk s.letters)
  match raw with
  | none => none
  | some t => if t = "" then none else some t

/-- The /api/send-to-gemini handler: read the accumulated text, await the
remote call (`remote`, with `mid` the store mutation other handlers
perform during that await), and on success delete the session and answer
with the sentence and the text read earlier; on remote failure answer
500 and perform no deletion. -/
def sendToGemini (textParam : Option String) (store : Option Session)
    (remote : String → Except String String)
    (mid : Option Session → Option Session) :
    Option Session × GeminiResp :=
  match geminiReadText textParam store with
  | none => (store, GeminiResp.badRequest)
  | some accTxt =>
    let sanitized := String.mk (trimChars accTxt.toList)
    let store2 := mid store
    match remote sanitized with
    | Except.error e => (store2, GeminiResp.serverError e)
    | Except.ok sentence => (none, GeminiResp.ok sentence sanitized)

/-- The session-store effect of one /api/classify-letter request
(server.js lines 133-161): create the session when missing, then run
accumulateLetter on it. -/
def accumulateStep (l : Option String) (conf : Rat) (now : Nat)
    (store : Option Session) : Option Session :=
  some (accumulateLetter l conf (store.getD (emptySession now)) now).1

/-- Counterexample to claim C4 as stated: the hand-off is not atomic.
With the session holding letters ['H'], three ("E", 0.92) classify
frames running during the handler's await commit 'E', so at deletion
time the session's letters are ['H','E'] — the session was read and
also concurrently mutated mid-handoff — yet the handler still deletes
it and answers with the pre-await text "H", silently discarding the
committed 'E'. -/
theorem claimC4_counterexample :
    geminiReadText none (some ⟨['H'], [], 0⟩) = some "H" ∧
    (accumulateStep (some "E") (mkRat 92 100) 7
      (accumulateStep (some "E") (mkRat 92 100) 7
        (accumulateStep (some "E") (mkRat 92 100) 7
          (some ⟨['H'], [], 0⟩)))) = some ⟨['H', 'E'], [], 7⟩ ∧
    ¬ ((accumulateStep (some "E") (mkRat 92 100) 7
      (accumulateStep (some "E") (mkRat 92 100) 7
        (accumulateStep (some "E") (mkRat 92 100) 7
          (some ⟨['H'], [], 0⟩)))).map Session.letters
        = (some ⟨['H'], [], 0⟩ : Option Session).map Session.letters) ∧
    sendToGemini none (some ⟨['H'], [], 0⟩) (fun _ => Except.ok "Hello.")
      (fun st => accumulateStep (some "E") (mkRat 92 100) 7
        (accumulateStep (some "E") (mkRat 92 100) 7
          (accumulateStep (some "E") (mkRat 92 100) 7 st)))
      = (none, GeminiResp.ok "Hello." "H") := by
  decide

/-- Claim C4 (amended): the hand-off reads the accumulated text before
the remote sentence-formation call and deletes the session only after
that call returns; it is not atomic — whatever mutation other handlers
apply to the store during the await, the session is deleted at
completion and the response carries the text read before the call, so
any symbols committed mid-handoff are discarded. -/
theorem claimC4_amended (textParam : Option String) (store : Option Session)
    (remote : String → Except String String)
    (mid : Option Session → Option Session) (accTxt sentence : String)
    (hread : geminiReadText textParam store = some accTxt)
    (hok : remote (String.mk (trimChars accTxt.toList)) = Except.ok sentence) :
    sendToGemini textParam store remote mid
      = (none, GeminiResp.ok sentence (String.mk (trimChars accTxt.toList))) := by
  simp only [String.toList] at hok
  simp [sendToGemini, hread, hok]

/-- Witness for the amended claim C4 at the counterexample's inputs. -/
theorem claimC4_witness :
    (geminiReadText none (some ⟨['H'], [], 0⟩) = some "H" ∧
     (fun _ => Except.ok "Hello." : String → Except String String)
       (String.mk (trimChars "H".toList)) = Except.ok "Hello.") ∧
    sendToGemini none (some ⟨['H'], [], 0⟩) (fun _ => Except.ok "Hello.")
      (fun st => accumulateStep (some "E") (mkRat 92 100) 7 st)
      = (none, GeminiResp.ok "Hello." (String.mk (trimChars "H".toList))) :=
  ⟨⟨by decide, rfl⟩,
   claimC4_amended none (some ⟨['H'], [], 0⟩) (fun _ => Except.ok "Hello.")
     (fun st => accumulateStep (some "E") (mkRat 92 100) 7 st) "H" "Hello."
     (by decide) rfl⟩

/-- Claim C10: in the hand-off, the session is deleted only when the
remote sentence-formation call returns successfully; when the remote
call fails, the handler leaves the session store exactly as it was
(`mid = id` isolates the handler's own effect), and when it succeeds
the session is deleted. -/
theorem claimC10_delete_only_on_success (textParam : Option String)
    (store : Option Session) (remote : String → Except String String)
    (accTxt e sentence : String)
    (hread : geminiReadText textParam store = some accTxt) :
    (remote (String.mk (trimChars accTxt.toList)) = Except.error e →
      sendToGemini textParam store remote id = (store, GeminiResp.serverError e)) ∧
    (remote (String.mk (trimChars accTxt.toList)) = Except.ok sentence →
      sendToGemini textParam store remote id
        = (none, GeminiResp.ok sentence (String.mk (trimChars accTxt.toList)))) := by
  constructor
  · intro h
    simp only [String.toList] at h
    simp [sendToGemini, hread, h]
  · intro h
    simp only [String.toList] at h
    simp [sendToGemini, hread, h]

/-- Witness for claim C10 with a failing remote call against the session
⟨['H','I'], [], 0⟩. -/
theorem claimC10_witness :
    (geminiReadText none (some ⟨['H', 'I'], [], 0⟩) = some "HI") ∧
    ((fun _ => Except.error "remote failed" : String → Except String String)
        (String.mk (trimChars "HI".toList)) = Except.error "remote failed" →
      sendToGemini none (some ⟨['H', 'I'], [], 0⟩)
        (fun _ => Except.error "remote failed") id
        = (some ⟨['H', 'I'], [], 0⟩, GeminiResp.serverError "remote failed")) ∧
    ((fun _ => Except.error "remote failed" : String → Except String String)
        (String.mk (trimChars "HI".toList)) = Except.ok "unused" →
      sendToGemini none (some ⟨['H', 'I'], [], 0⟩)
        (fun _ => Except.error "remote failed") id
        = (none, GeminiResp.ok "unused" (String.mk (trimChars "HI".toList)))) :=
  ⟨by decide,
   (claimC10_delete_only_on_success none (some ⟨['H', 'I'], [], 0⟩)
     (fun _ => Except.error "remote failed") "HI" "remote failed" "unused"
     (by decide)).1,
   (claimC10_delete_only_on_success none (some ⟨['H', 'I'], [], 0⟩)
     (fun _ => Except.error "remote failed") "HI" "remote failed" "unused"
     (by decide)).2⟩
